import Mathlib

/-!
Verification of `react-native-confetti-explosion` (src/src/index.tsx).

The component has two mathematical cores:
* the configuration generator `explosionConfigs` (source lines 197-247), which
  produces one `ExplosionPieceConfig` record per piece from the props and the
  process-wide random source, and
* the motion evaluator `animatedStyle` (source lines 71-104), a closed-form
  pure function from a piece config and a progress scalar to an opacity and a
  2D transform.

We embed both over the real numbers.  Each call to `Math.random()` made while
building one piece's config is modelled by one field of a `RandDraws` record
(in source order); the process-wide random source becomes an injectable
function `ℕ → RandDraws` giving each piece index its draws.  The completion
timer effect (lines 184-190) and the layout-gated rendering (lines 258-268)
are modelled as small pure functions of the quantities they branch on.
-/

/-- The component props (`ConfettiExplosionProps`, source lines 124-151), with
every default already applied by the destructuring at lines 164-178.  `drag`
is the base drag coefficient (`dragBase` in the function body), `gravity` the
base gravity magnitude (`gravityBase`). -/
structure ExplosionRequest where
  pieceCount : ℤ
  duration : ℝ
  colors : List String
  shapes : List String
  emoji : Option String
  emojiFrequency : ℝ
  pieceSize : ℝ
  explosionRadius : ℝ
  drag : ℝ
  gravity : ℝ
  launchForce : ℝ

/-- One `Math.random()` result for each of the nine calls made in one
iteration of the generator loop (source lines 204-223), in source order:
drag (l.204), gravity multiplier (l.205), upward-bias multiplier (l.206),
emoji test (l.208), shape index (l.209), color index (l.210), size (l.215),
rotation speed (l.220), explosion distance (l.223). -/
structure RandDraws where
  dragR : ℝ
  gravR : ℝ
  upR : ℝ
  emojiR : ℝ
  shapeR : ℝ
  colorR : ℝ
  sizeR : ℝ
  rotR : ℝ
  distR : ℝ

/-- `Math.random()` returns a value in `[0, 1)`; a draw record is valid when
every field is in that range. -/
def RandDraws.valid (r : RandDraws) : Prop :=
  (0 ≤ r.dragR ∧ r.dragR < 1) ∧ (0 ≤ r.gravR ∧ r.gravR < 1) ∧
  (0 ≤ r.upR ∧ r.upR < 1) ∧ (0 ≤ r.emojiR ∧ r.emojiR < 1) ∧
  (0 ≤ r.shapeR ∧ r.shapeR < 1) ∧ (0 ≤ r.colorR ∧ r.colorR < 1) ∧
  (0 ≤ r.sizeR ∧ r.sizeR < 1) ∧ (0 ≤ r.rotR ∧ r.rotR < 1) ∧
  (0 ≤ r.distR ∧ r.distR < 1)

/-- The per-piece record (`ExplosionPieceConfig`, source lines 13-32). -/
structure ExplosionPieceConfig where
  size : ℝ
  shape : String
  color : String
  delay : ℝ
  duration : ℝ
  rotationSpeed : ℝ
  cosAngle : ℝ
  sinAngle : ℝ
  explosionDistance : ℝ
  gravityMultiplier : ℝ
  drag : ℝ
  upwardBiasMultiplier : ℝ
  kX : ℝ
  kGravity : ℝ
  upwardBias : ℝ
  gravity : ℝ

/-- `angleStep` (source line 199): `pieceCount > 1 ? 180 / (pieceCount - 1) : 0`. -/
noncomputable def angleStep (pieceCount : ℤ) : ℝ :=
  if 1 < pieceCount then 180 / ((pieceCount : ℝ) - 1) else 0

/-- `baseAngle` (source line 202): `180 + index * angleStep`. -/
noncomputable def baseAngle (pieceCount : ℤ) (index : ℕ) : ℝ :=
  180 + (index : ℝ) * angleStep pieceCount

/-- The body of one generator-loop iteration (source lines 201-231): builds
piece `index`'s config from the props and that piece's random draws.
`shapes[shapeIndex]!` / `colors[colorIndex]!` are modelled with `List.getD`
(the index is in bounds whenever the list is nonempty and the draw valid);
the truthiness test `emoji && Math.random() < emojiFrequency` (line 208)
becomes a match on the optional emoji. -/
noncomputable def mkPieceConfig (req : ExplosionRequest) (r : RandDraws)
    (index : ℕ) : ExplosionPieceConfig :=
  let angleRad := baseAngle req.pieceCount index * Real.pi / 180
  let drag := req.drag + r.dragR * 0.7
  let gravityMultiplier := 0.6 + r.gravR * 0.8
  let upwardBiasMultiplier := 0.2 + r.upR * 0.8
  let shapeIndex := ⌊r.shapeR * (req.shapes.length : ℝ)⌋₊
  let colorIndex := ⌊r.colorR * (req.colors.length : ℝ)⌋₊
  let shape := match req.emoji with
    | some e => if r.emojiR < req.emojiFrequency then e else req.shapes.getD shapeIndex ""
    | none => req.shapes.getD shapeIndex ""
  { size := r.sizeR * 6 + req.pieceSize
    shape := shape
    color := req.colors.getD colorIndex ""
    delay := 0
    duration := req.duration
    rotationSpeed := r.rotR * 180 + 90
    cosAngle := Real.cos angleRad
    sinAngle := Real.sin angleRad
    explosionDistance := r.distR * req.explosionRadius
    gravityMultiplier := gravityMultiplier
    drag := drag
    upwardBiasMultiplier := upwardBiasMultiplier
    kX := drag * 3
    kGravity := max 0.5 (drag * 2)
    upwardBias := -req.launchForce * upwardBiasMultiplier
    gravity := req.gravity * gravityMultiplier }

/-- `explosionConfigs` (source lines 197-234): the loop
`for (let index = 0; index < pieceCount; index++)` pushes one config per
iteration, so it yields one record per index in `[0, pieceCount)` and runs
zero times when `pieceCount ≤ 0`. -/
noncomputable def explosionConfigs (req : ExplosionRequest)
    (rand : ℕ → RandDraws) : List ExplosionPieceConfig :=
  (List.range req.pieceCount.toNat).map (fun index => mkPieceConfig req (rand index) index)

/-- The output of the animated-style worklet (source lines 96-103): opacity
plus the translateX / translateY / rotate transform entries. -/
structure MotionStyle where
  opacity : ℝ
  translateX : ℝ
  translateY : ℝ
  rotate : ℝ

/-- Reanimated's `interpolate(x, [x0, x1], [y0, y1], 'clamp')` for an
increasing two-point input range: linear interpolation on `[x0, x1]`, held at
the edge output values outside it. -/
noncomputable def interpolateClamp (x x0 x1 y0 y1 : ℝ) : ℝ :=
  if x ≤ x0 then y0
  else if x1 ≤ x then y1
  else y0 + (x - x0) / (x1 - x0) * (y1 - y0)

/-- The motion evaluator: the worklet body of `useAnimatedStyle`
(source lines 71-104), a pure function of the piece config and the progress
value `animation.value`. -/
noncomputable def animatedStyle (c : ExplosionPieceConfig) (progress : ℝ) :
    MotionStyle :=
  let horizontalPositionFactor := (1 - Real.exp (-c.kX * progress)) / c.kX
  let outwardX := c.cosAngle * c.explosionDistance * horizontalPositionFactor
  let baseY := c.sinAngle * c.explosionDistance * horizontalPositionFactor
  let upwardVelocity := c.upwardBias * horizontalPositionFactor
  let terminalVelocityFactor :=
    (1 / (c.kGravity * c.kGravity)) *
      (c.kGravity * progress - 1 + Real.exp (-c.kGravity * progress))
  let gravityEffect := c.gravity * terminalVelocityFactor * 4
  { opacity := interpolateClamp progress 3.2 4 1 0
    translateX := outwardX
    translateY := baseY + upwardVelocity + gravityEffect
    rotate := progress * c.rotationSpeed * 2 }

/-- The completion-timer effect (source lines 184-190): when `duration ≤ 0`
the effect returns before creating any timer; otherwise a timer is scheduled
to fire `duration` ms after start. -/
noncomputable def completionTimer (duration : ℝ) : Option ℝ :=
  if duration ≤ 0 then none else some duration

/-- When the callback actually fires: `setTimeout` fires the scheduled timer
at its due time unless the effect cleanup (`clearTimeout`, source line 189)
runs first.  `teardown = some td` means the component is torn down `td` ms
after start; a timer still pending at teardown (`td` before the due time) is
cancelled and never fires. -/
noncomputable def callbackFireTime (duration : ℝ) (teardown : Option ℝ) :
    Option ℝ :=
  match completionTimer duration with
  | none => none
  | some t =>
    match teardown with
    | none => some t
    | some td => if td < t then none else some t

/-- The measured container layout (source line 179 state, updated by the
`onLayout` callback at lines 253-256). -/
structure Layout where
  width : ℝ
  height : ℝ

/-- `resolvedOrigin` (source lines 192-195): the explicit origin prop if
given, else bottom-center of the measured container. -/
noncomputable def resolvedOrigin (origin : Option (ℝ × ℝ)) (layout : Layout) :
    ℝ × ℝ :=
  origin.getD (layout.width / 2, layout.height)

/-- The render gate (source lines 258-268): the piece list is rendered only
when `layout.width > 0 && layout.height > 0`; otherwise nothing is emitted. -/
noncomputable def renderedConfigs (layout : Layout)
    (configs : List ExplosionPieceConfig) : List ExplosionPieceConfig :=
  if 0 < layout.width ∧ 0 < layout.height then configs else []

/-- A concrete request used to instantiate proved theorems: the source's
default prop values (lines 164-177) with `pieceCount := 3` and singleton
color/shape lists. -/
def sampleRequest : ExplosionRequest :=
  { pieceCount := 3
    duration := 5000
    colors := ["#FF5252"]
    shapes := ["#"]
    emoji := none
    emojiFrequency := 0.3
    pieceSize := 14
    explosionRadius := 850
    drag := 0.6
    gravity := 400
    launchForce := 4500 }

/-- The all-zero random draw record (each `Math.random()` call returned 0). -/
def zeroDraws : RandDraws :=
  ⟨0, 0, 0, 0, 0, 0, 0, 0, 0⟩

/-- A concrete piece config used to instantiate proved theorems: the values
the generator produces from `sampleRequest` and all-zero draws for the first
piece of a one-piece explosion (`kX = 0.6 * 3`, `kGravity = max 0.5 1.2`). -/
def sampleConfig : ExplosionPieceConfig :=
  { size := 14
    shape := "#"
    color := "#FF5252"
    delay := 0
    duration := 5000
    rotationSpeed := 90
    cosAngle := -1
    sinAngle := 0
    explosionDistance := 0
    gravityMultiplier := 0.6
    drag := 0.6
    upwardBiasMultiplier := 0.2
    kX := 1.8
    kGravity := 1.2
    upwardBias := -900
    gravity := 240 }

/-- C1: for every `pieceCount ≥ 1` the generator produces exactly
`pieceCount` piece configs, and for every `pieceCount ≤ 0` it produces the
empty list. -/
theorem c1_explosionConfigs_length (req : ExplosionRequest)
    (rand : ℕ → RandDraws) :
    (1 ≤ req.pieceCount →
      ((explosionConfigs req rand).length : ℤ) = req.pieceCount) ∧
    (req.pieceCount ≤ 0 → explosionConfigs req rand = []) := by
  constructor
  · intro h
    simp only [explosionConfigs, List.length_map, List.length_range]
    exact Int.toNat_of_nonneg (by omega)
  · intro h
    simp [explosionConfigs, Int.toNat_of_nonpos h]

/-- Witness for C1 at `pieceCount = 3` and `pieceCount = -1`. -/
theorem c1_explosionConfigs_length_witness :
    ((explosionConfigs sampleRequest (fun _ => zeroDraws)).length : ℤ) =
      sampleRequest.pieceCount ∧
    explosionConfigs { sampleRequest with pieceCount := -1 }
      (fun _ => zeroDraws) = [] :=
  ⟨(c1_explosionConfigs_length sampleRequest (fun _ => zeroDraws)).1
      (by norm_num [sampleRequest]),
   (c1_explosionConfigs_length { sampleRequest with pieceCount := -1 }
      (fun _ => zeroDraws)).2 (by norm_num)⟩

/-- C2: for `pieceCount > 1` particle `i`'s base angle is
`180 + i * (180 / (pieceCount - 1))` degrees, hence consecutive base angles
differ by exactly `180 / (pieceCount - 1)` degrees and the first and last
particles sit at 180 and 360 degrees; for `pieceCount = 1` the angle step is
0 and the single particle's base angle is 180 degrees. -/
theorem c2_baseAngle_fan (pieceCount : ℤ) :
    (1 < pieceCount →
      (∀ i : ℕ, baseAngle pieceCount i =
        180 + (i : ℝ) * (180 / ((pieceCount : ℝ) - 1))) ∧
      (∀ i : ℕ, baseAngle pieceCount (i + 1) - baseAngle pieceCount i =
        180 / ((pieceCount : ℝ) - 1)) ∧
      baseAngle pieceCount 0 = 180 ∧
      baseAngle pieceCount (pieceCount.toNat - 1) = 360) ∧
    (pieceCount = 1 →
      angleStep pieceCount = 0 ∧ baseAngle pieceCount 0 = 180) := by
  constructor
  · intro h
    have hstep : angleStep pieceCount = 180 / ((pieceCount : ℝ) - 1) := by
      simp [angleStep, h]
    have hne : (pieceCount : ℝ) - 1 ≠ 0 := by
      have : (1 : ℝ) < (pieceCount : ℝ) := by exact_mod_cast h
      linarith
    refine ⟨fun i => by simp [baseAngle, hstep], fun i => ?_, ?_, ?_⟩
    · simp only [baseAngle, hstep]
      push_cast
      ring
    · simp [baseAngle]
    · have h1 : 1 ≤ pieceCount.toNat := by omega
      have hcast : ((pieceCount.toNat - 1 : ℕ) : ℝ) = (pieceCount : ℝ) - 1 := by
        rw [Nat.cast_sub h1]
        have : ((pieceCount.toNat : ℤ) : ℝ) = ((pieceCount : ℤ) : ℝ) := by
          rw [Int.toNat_of_nonneg (by omega)]
        push_cast at this ⊢
        rw [this]
      rw [baseAngle, hstep, hcast]
      field_simp
      norm_num
  · intro h
    subst h
    constructor
    · simp [angleStep]
    · simp [baseAngle]

/-- Witness for C2 at `pieceCount = 3` (and the degenerate `pieceCount = 1`). -/
theorem c2_baseAngle_fan_witness :
    baseAngle 3 0 = 180 + ((0 : ℕ) : ℝ) * (180 / ((3 : ℤ) - 1 : ℤ)) ∧
    baseAngle 3 1 - baseAngle 3 0 = 180 / (((3 : ℤ) : ℝ) - 1) ∧
    baseAngle 3 0 = 180 ∧
    baseAngle 3 ((3 : ℤ).toNat - 1) = 360 ∧
    angleStep 1 = 0 ∧ baseAngle 1 0 = 180 := by
  obtain ⟨ha, hb, hc, hd⟩ := (c2_baseAngle_fan 3).1 (by norm_num)
  obtain ⟨he, hf⟩ := (c2_baseAngle_fan 1).2 rfl
  exact ⟨by simpa using ha 0, by simpa using hb 0, hc, hd, he, hf⟩

/-- C5: every generated particle's `kGravity` is at least 0.5, whatever drag
value was sampled. -/
theorem c5_kGravity_ge_half (req : ExplosionRequest) (rand : ℕ → RandDraws) :
    ∀ c ∈ explosionConfigs req rand, (0.5 : ℝ) ≤ c.kGravity := by
  intro c hc
  simp only [explosionConfigs, List.mem_map, List.mem_range] at hc
  obtain ⟨i, _, rfl⟩ := hc
  have hk : (mkPieceConfig req (rand i) i).kGravity =
      max 0.5 ((req.drag + (rand i).dragR * 0.7) * 2) := rfl
  rw [hk]
  exact le_max_left _ _

/-- Witness for C5: the first particle of a concrete explosion. -/
theorem c5_kGravity_ge_half_witness :
    (0.5 : ℝ) ≤ (mkPieceConfig sampleRequest zeroDraws 0).kGravity :=
  c5_kGravity_ge_half sampleRequest (fun _ => zeroDraws)
    (mkPieceConfig sampleRequest zeroDraws 0)
    (by
      simp only [explosionConfigs, List.mem_map, List.mem_range]
      exact ⟨0, by norm_num [sampleRequest], rfl⟩)

/-- C7: the completion callback is scheduled iff `duration > 0`: with
`duration ≤ 0` no timer exists and the callback never fires; with
`duration > 0` the callback fires at `duration` ms when the component
survives that long, and teardown strictly before `duration` cancels the
pending timer so the callback never fires. -/
theorem c7_completion_callback (duration : ℝ) :
    (duration ≤ 0 → completionTimer duration = none ∧
      ∀ teardown, callbackFireTime duration teardown = none) ∧
    (0 < duration → callbackFireTime duration none = some duration) ∧
    (0 < duration → ∀ td, td < duration →
      callbackFireTime duration (some td) = none) ∧
    (0 < duration → ∀ td, duration ≤ td →
      callbackFireTime duration (some td) = some duration) := by
  refine ⟨fun h => ⟨?_, fun teardown => ?_⟩, fun h => ?_,
    fun h td hlt => ?_, fun h td hle => ?_⟩
  · simp [completionTimer, h]
  · simp [callbackFireTime, completionTimer, h]
  · simp [callbackFireTime, completionTimer, not_le.mpr h]
  · simp [callbackFireTime, completionTimer, not_le.mpr h, hlt]
  · simp [callbackFireTime, completionTimer, not_le.mpr h, not_lt.mpr hle]

/-- Witness for C7 at `duration = -1` and `duration = 5000` with teardown at
1000 ms and at 6000 ms. -/
theorem c7_completion_callback_witness :
    completionTimer (-1) = none ∧
    callbackFireTime (-1) none = none ∧
    callbackFireTime 5000 none = some 5000 ∧
    callbackFireTime 5000 (some 1000) = none ∧
    callbackFireTime 5000 (some 6000) = some 5000 := by
  obtain ⟨h1, h2⟩ := (c7_completion_callback (-1)).1 (by norm_num)
  exact ⟨h1, h2 none,
    (c7_completion_callback 5000).2.1 (by norm_num),
    (c7_completion_callback 5000).2.2.1 (by norm_num) 1000 (by norm_num),
    (c7_completion_callback 5000).2.2.2 (by norm_num) 6000 (by norm_num)⟩

/-- C3: evaluating the motion formula at progress 0 yields zero displacement,
zero rotation and opacity 1 for any valid piece config. -/
theorem c3_evaluate_at_zero (c : ExplosionPieceConfig)
    (hkx : c.kX ≠ 0) (hkg : c.kGravity ≠ 0) :
    (animatedStyle c 0).translateX = 0 ∧ (animatedStyle c 0).translateY = 0 ∧
    (animatedStyle c 0).rotate = 0 ∧ (animatedStyle c 0).opacity = 1 := by
  refine ⟨?_, ?_, ?_, ?_⟩
  · show c.cosAngle * c.explosionDistance *
      ((1 - Real.exp (-c.kX * 0)) / c.kX) = 0
    simp
  · show c.sinAngle * c.explosionDistance *
        ((1 - Real.exp (-c.kX * 0)) / c.kX) +
      c.upwardBias * ((1 - Real.exp (-c.kX * 0)) / c.kX) +
      c.gravity * ((1 / (c.kGravity * c.kGravity)) *
        (c.kGravity * 0 - 1 + Real.exp (-c.kGravity * 0))) * 4 = 0
    simp
  · show (0 : ℝ) * c.rotationSpeed * 2 = 0
    ring
  · show interpolateClamp 0 3.2 4 1 0 = 1
    norm_num [interpolateClamp]

/-- Witness for C3 at a concrete piece config with nonzero coefficients. -/
theorem c3_evaluate_at_zero_witness :
    sampleConfig.kX ≠ 0 ∧ sampleConfig.kGravity ≠ 0 ∧
    (animatedStyle sampleConfig 0).translateX = 0 ∧
    (animatedStyle sampleConfig 0).translateY = 0 ∧
    (animatedStyle sampleConfig 0).rotate = 0 ∧
    (animatedStyle sampleConfig 0).opacity = 1 := by
  have h1 : sampleConfig.kX ≠ 0 := by norm_num [sampleConfig]
  have h2 : sampleConfig.kGravity ≠ 0 := by norm_num [sampleConfig]
  obtain ⟨ha, hb, hc, hd⟩ := c3_evaluate_at_zero sampleConfig h1 h2
  exact ⟨h1, h2, ha, hb, hc, hd⟩

/-- The fade curve `interpolate(progress, [3.2, 4], [1, 0], 'clamp')` in
closed form: 1 before 3.2, 0 after 4, the line `1 - (p - 3.2) * 1.25`
in between. -/
theorem interpolateClamp_fade (p : ℝ) :
    interpolateClamp p 3.2 4 1 0 =
      if p ≤ 3.2 then 1 else if 4 ≤ p then 0
      else 1 - (p - 3.2) * 1.25 := by
  unfold interpolateClamp
  split_ifs with h1 h2
  · rfl
  · rfl
  · rw [div_eq_mul_inv]
    norm_num
    ring

/-- C4: the evaluated opacity is exactly 1 for progress below 3.2, follows
the linear interpolation from 1 down to 0 on `[3.2, 4]` (hence is
monotonically non-increasing there), stays clamped to `[0, 1]` everywhere,
and equals 0 at progress 4. -/
theorem c4_opacity_fade (c : ExplosionPieceConfig) (p : ℝ) :
    (p < 3.2 → (animatedStyle c p).opacity = 1) ∧
    (3.2 ≤ p → p ≤ 4 →
      (animatedStyle c p).opacity = 1 + (p - 3.2) / (4 - 3.2) * (0 - 1)) ∧
    (∀ q : ℝ, 3.2 ≤ p → p ≤ q → q ≤ 4 →
      (animatedStyle c q).opacity ≤ (animatedStyle c p).opacity) ∧
    (0 ≤ (animatedStyle c p).opacity ∧ (animatedStyle c p).opacity ≤ 1) ∧
    (animatedStyle c 4).opacity = 0 := by
  have hop : ∀ x : ℝ, (animatedStyle c x).opacity =
      interpolateClamp x 3.2 4 1 0 := fun x => rfl
  refine ⟨fun h => ?_, fun h1 h2 => ?_, fun q h1 h2 h3 => ?_, ⟨?_, ?_⟩, ?_⟩
  · rw [hop, interpolateClamp_fade, if_pos (le_of_lt h)]
  · rw [hop, interpolateClamp_fade]
    split_ifs with ha hb
    · have hp : p = 3.2 := le_antisymm ha h1
      subst hp; norm_num
    · have hp : p = 4 := le_antisymm h2 hb
      subst hp; norm_num
    · rw [div_eq_mul_inv]
      norm_num
      ring
  · rw [hop, hop, interpolateClamp_fade, interpolateClamp_fade]
    split_ifs <;> linarith
  · rw [hop, interpolateClamp_fade]
    split_ifs <;> linarith
  · rw [hop, interpolateClamp_fade]
    split_ifs <;> linarith
  · rw [hop, interpolateClamp_fade]
    norm_num

/-- Witness for C4 at concrete progress values 2, 3.6, 3.4 ≤ 3.8, 10 and 4. -/
theorem c4_opacity_fade_witness :
    (animatedStyle sampleConfig 2).opacity = 1 ∧
    (animatedStyle sampleConfig 3.6).opacity =
      1 + ((3.6 : ℝ) - 3.2) / (4 - 3.2) * (0 - 1) ∧
    (animatedStyle sampleConfig 3.8).opacity ≤
      (animatedStyle sampleConfig 3.4).opacity ∧
    (0 ≤ (animatedStyle sampleConfig 10).opacity ∧
      (animatedStyle sampleConfig 10).opacity ≤ 1) ∧
    (animatedStyle sampleConfig 4).opacity = 0 :=
  ⟨(c4_opacity_fade sampleConfig 2).1 (by norm_num),
   (c4_opacity_fade sampleConfig 3.6).2.1 (by norm_num) (by norm_num),
   (c4_opacity_fade sampleConfig 3.4).2.2.1 3.8 (by norm_num) (by norm_num)
     (by norm_num),
   (c4_opacity_fade sampleConfig 10).2.2.2.1,
   (c4_opacity_fade sampleConfig 4).2.2.2.2⟩

/-- C8: with `pieceCount = 1` the single particle's base angle is 180
degrees, so `cosAngle = -1` and `sinAngle = 0`, and evaluating at progress 2
gives `dx = -1 * explosionDistance * (1 - e^(-kX*2)) / kX`. -/
theorem c8_single_piece (req : ExplosionRequest) (r : RandDraws)
    (h : req.pieceCount = 1) :
    (mkPieceConfig req r 0).cosAngle = -1 ∧
    (mkPieceConfig req r 0).sinAngle = 0 ∧
    (animatedStyle (mkPieceConfig req r 0) 2).translateX =
      -1 * (mkPieceConfig req r 0).explosionDistance *
        (1 - Real.exp (-(mkPieceConfig req r 0).kX * 2)) /
        (mkPieceConfig req r 0).kX := by
  have hangle : baseAngle req.pieceCount 0 * Real.pi / 180 = Real.pi := by
    have h0 : angleStep (1 : ℤ) = 0 := by norm_num [angleStep]
    rw [h, baseAngle, h0]
    push_cast
    ring
  have hcos : (mkPieceConfig req r 0).cosAngle =
      Real.cos (baseAngle req.pieceCount 0 * Real.pi / 180) := rfl
  have hsin : (mkPieceConfig req r 0).sinAngle =
      Real.sin (baseAngle req.pieceCount 0 * Real.pi / 180) := rfl
  have hc : (mkPieceConfig req r 0).cosAngle = -1 := by
    rw [hcos, hangle, Real.cos_pi]
  have hs : (mkPieceConfig req r 0).sinAngle = 0 := by
    rw [hsin, hangle, Real.sin_pi]
  refine ⟨hc, hs, ?_⟩
  have hx : (animatedStyle (mkPieceConfig req r 0) 2).translateX =
      (mkPieceConfig req r 0).cosAngle *
        (mkPieceConfig req r 0).explosionDistance *
        ((1 - Real.exp (-(mkPieceConfig req r 0).kX * 2)) /
          (mkPieceConfig req r 0).kX) := rfl
  rw [hx, hc]
  ring

/-- Witness for C8 at the sample request restricted to one piece. -/
theorem c8_single_piece_witness :
    (mkPieceConfig { sampleRequest with pieceCount := 1 } zeroDraws 0).cosAngle
      = -1 ∧
    (mkPieceConfig { sampleRequest with pieceCount := 1 } zeroDraws 0).sinAngle
      = 0 ∧
    (animatedStyle
        (mkPieceConfig { sampleRequest with pieceCount := 1 } zeroDraws 0)
        2).translateX =
      -1 * (mkPieceConfig { sampleRequest with pieceCount := 1 }
          zeroDraws 0).explosionDistance *
        (1 - Real.exp
          (-(mkPieceConfig { sampleRequest with pieceCount := 1 }
              zeroDraws 0).kX * 2)) /
        (mkPieceConfig { sampleRequest with pieceCount := 1 } zeroDraws 0).kX :=
  c8_single_piece { sampleRequest with pieceCount := 1 } zeroDraws rfl

/-- C6: every generated particle's sampled values land in the stated
half-open ranges, and its glyph comes from the shape set unless an emoji is
configured and the emoji draw beats `emojiFrequency`, in which case the
glyph is the emoji. -/
theorem c6_sampled_ranges (req : ExplosionRequest) (r : RandDraws) (i : ℕ)
    (hv : r.valid) (hrad : 0 < req.explosionRadius)
    (hs : req.shapes ≠ []) :
    (req.drag ≤ (mkPieceConfig req r i).drag ∧
      (mkPieceConfig req r i).drag < req.drag + 0.7) ∧
    (0.6 ≤ (mkPieceConfig req r i).gravityMultiplier ∧
      (mkPieceConfig req r i).gravityMultiplier < 1.4) ∧
    (0.2 ≤ (mkPieceConfig req r i).upwardBiasMultiplier ∧
      (mkPieceConfig req r i).upwardBiasMultiplier < 1) ∧
    (0 ≤ (mkPieceConfig req r i).explosionDistance ∧
      (mkPieceConfig req r i).explosionDistance < req.explosionRadius) ∧
    (req.pieceSize ≤ (mkPieceConfig req r i).size ∧
      (mkPieceConfig req r i).size < req.pieceSize + 6) ∧
    (90 ≤ (mkPieceConfig req r i).rotationSpeed ∧
      (mkPieceConfig req r i).rotationSpeed < 270) ∧
    ((req.emoji = none → (mkPieceConfig req r i).shape ∈ req.shapes) ∧
      ∀ e, req.emoji = some e →
        (r.emojiR < req.emojiFrequency → (mkPieceConfig req r i).shape = e) ∧
        (req.emojiFrequency ≤ r.emojiR →
          (mkPieceConfig req r i).shape ∈ req.shapes)) := by
  obtain ⟨⟨hd0, hd1⟩, ⟨hg0, hg1⟩, ⟨hu0, hu1⟩, ⟨he0, he1⟩, ⟨hs0, hs1⟩,
    ⟨hc0, hc1⟩, ⟨hz0, hz1⟩, ⟨hr0, hr1⟩, ⟨hx0, hx1⟩⟩ := hv
  have hdrag : (mkPieceConfig req r i).drag = req.drag + r.dragR * 0.7 := rfl
  have hgrav : (mkPieceConfig req r i).gravityMultiplier =
      0.6 + r.gravR * 0.8 := rfl
  have hup : (mkPieceConfig req r i).upwardBiasMultiplier =
      0.2 + r.upR * 0.8 := rfl
  have hdist : (mkPieceConfig req r i).explosionDistance =
      r.distR * req.explosionRadius := rfl
  have hsize : (mkPieceConfig req r i).size = r.sizeR * 6 + req.pieceSize := rfl
  have hrot : (mkPieceConfig req r i).rotationSpeed = r.rotR * 180 + 90 := rfl
  have hlen : 0 < req.shapes.length := List.length_pos.mpr hs
  have hmem : req.shapes.getD (⌊r.shapeR * (req.shapes.length : ℝ)⌋₊) "" ∈
      req.shapes := by
    have hidx : ⌊r.shapeR * (req.shapes.length : ℝ)⌋₊ < req.shapes.length := by
      rw [Nat.floor_lt (mul_nonneg hs0 (Nat.cast_nonneg _))]
      calc r.shapeR * (req.shapes.length : ℝ)
          < 1 * (req.shapes.length : ℝ) :=
            mul_lt_mul_of_pos_right hs1 (by exact_mod_cast hlen)
        _ = (req.shapes.length : ℝ) := one_mul _
    rw [List.getD_eq_getElem _ _ hidx]
    exact List.getElem_mem hidx
  refine ⟨⟨?_, ?_⟩, ⟨?_, ?_⟩, ⟨?_, ?_⟩, ⟨?_, ?_⟩, ⟨?_, ?_⟩, ⟨?_, ?_⟩,
    ?_, ?_⟩
  · rw [hdrag]; linarith
  · rw [hdrag]; linarith
  · rw [hgrav]; linarith
  · rw [hgrav]; linarith
  · rw [hup]; linarith
  · rw [hup]; linarith
  · rw [hdist]; exact mul_nonneg hx0 (le_of_lt hrad)
  · rw [hdist]
    calc r.distR * req.explosionRadius < 1 * req.explosionRadius :=
        mul_lt_mul_of_pos_right hx1 hrad
      _ = req.explosionRadius := one_mul _
  · rw [hsize]; linarith
  · rw [hsize]; linarith
  · rw [hrot]; linarith
  · rw [hrot]; linarith
  · intro hnone
    have hshape : (mkPieceConfig req r i).shape =
        req.shapes.getD (⌊r.shapeR * (req.shapes.length : ℝ)⌋₊) "" := by
      show (match req.emoji with
        | some e => if r.emojiR < req.emojiFrequency then e
            else req.shapes.getD (⌊r.shapeR * (req.shapes.length : ℝ)⌋₊) ""
        | none => req.shapes.getD (⌊r.shapeR * (req.shapes.length : ℝ)⌋₊) "")
          = req.shapes.getD (⌊r.shapeR * (req.shapes.length : ℝ)⌋₊) ""
      rw [hnone]
    rw [hshape]
    exact hmem
  · intro e hsome
    have hshape : (mkPieceConfig req r i).shape =
        if r.emojiR < req.emojiFrequency then e
        else req.shapes.getD (⌊r.shapeR * (req.shapes.length : ℝ)⌋₊) "" := by
      show (match req.emoji with
        | some e => if r.emojiR < req.emojiFrequency then e
            else req.shapes.getD (⌊r.shapeR * (req.shapes.length : ℝ)⌋₊) ""
        | none => req.shapes.getD (⌊r.shapeR * (req.shapes.length : ℝ)⌋₊) "")
          = if r.emojiR < req.emojiFrequency then e
            else req.shapes.getD (⌊r.shapeR * (req.shapes.length : ℝ)⌋₊) ""
      rw [hsome]
    constructor
    · intro hfreq
      rw [hshape, if_pos hfreq]
    · intro hfreq
      rw [hshape, if_neg (not_lt.mpr hfreq)]
      exact hmem

/-- Witness for C6 at the sample request and all-zero draws. -/
theorem c6_sampled_ranges_witness :
    sampleRequest.drag ≤ (mkPieceConfig sampleRequest zeroDraws 0).drag ∧
    (mkPieceConfig sampleRequest zeroDraws 0).shape ∈ sampleRequest.shapes :=
  ⟨(c6_sampled_ranges sampleRequest zeroDraws 0
      (by norm_num [RandDraws.valid, zeroDraws])
      (by norm_num [sampleRequest]) (by simp [sampleRequest])).1.1,
   ((c6_sampled_ranges sampleRequest zeroDraws 0
      (by norm_num [RandDraws.valid, zeroDraws])
      (by norm_num [sampleRequest])
      (by simp [sampleRequest])).2.2.2.2.2.2.1) rfl⟩

/-- C9: while the measured layout has a non-positive width or height no
particle is rendered; once both dimensions are positive all `pieceCount`
particles are rendered, and with no explicit origin the default origin
resolves to `(width / 2, height)`. -/
theorem c9_layout_gate (req : ExplosionRequest) (rand : ℕ → RandDraws)
    (w h : ℝ) :
    (w ≤ 0 ∨ h ≤ 0 →
      renderedConfigs ⟨w, h⟩ (explosionConfigs req rand) = []) ∧
    (0 < w → 0 < h → 0 ≤ req.pieceCount →
      ((renderedConfigs ⟨w, h⟩ (explosionConfigs req rand)).length : ℤ) =
        req.pieceCount ∧
      resolvedOrigin none ⟨w, h⟩ = (w / 2, h)) := by
  constructor
  · intro hz
    have hng : ¬ ((0:ℝ) < w ∧ (0:ℝ) < h) := by
      rcases hz with hw | hh
      · exact fun hcon => absurd hcon.1 (not_lt.mpr hw)
      · exact fun hcon => absurd hcon.2 (not_lt.mpr hh)
    simp [renderedConfigs, hng]
  · intro hw hh hcount
    constructor
    · have hgate : renderedConfigs ⟨w, h⟩ (explosionConfigs req rand) =
          explosionConfigs req rand := by
        simp [renderedConfigs, hw, hh]
      rw [hgate]
      simp only [explosionConfigs, List.length_map, List.length_range]
      exact Int.toNat_of_nonneg hcount
    · simp [resolvedOrigin]

/-- Witness for C9 at layout 0×0, then 100×200, with the sample request. -/
theorem c9_layout_gate_witness :
    renderedConfigs ⟨0, 0⟩
      (explosionConfigs sampleRequest (fun _ => zeroDraws)) = [] ∧
    ((renderedConfigs ⟨100, 200⟩
        (explosionConfigs sampleRequest (fun _ => zeroDraws))).length : ℤ) =
      sampleRequest.pieceCount ∧
    resolvedOrigin none ⟨100, 200⟩ = ((100 : ℝ) / 2, (200 : ℝ)) :=
  ⟨(c9_layout_gate sampleRequest (fun _ => zeroDraws) 0 0).1
      (Or.inl le_rfl),
   ((c9_layout_gate sampleRequest (fun _ => zeroDraws) 100 200).2
      (by norm_num) (by norm_num) (by norm_num [sampleRequest])).1,
   ((c9_layout_gate sampleRequest (fun _ => zeroDraws) 100 200).2
      (by norm_num) (by norm_num) (by norm_num [sampleRequest])).2⟩

/-- C10: with a strictly positive base drag every generated particle has
`kX = drag * 3 > 0` and `kGravity ≥ 0.5 > 0`, so both denominators of the
motion evaluator (`kX` and `kGravity * kGravity`) are nonzero; with base
drag 0 the guard fails (`kX = 0` when the drag draw is 0). -/
theorem c10_denominators_nonzero :
    (∀ (req : ExplosionRequest) (r : RandDraws) (i : ℕ), r.valid →
      0 < req.drag →
      0 < (mkPieceConfig req r i).kX ∧
      (0.5 : ℝ) ≤ (mkPieceConfig req r i).kGravity ∧
      (mkPieceConfig req r i).kX ≠ 0 ∧
      (mkPieceConfig req r i).kGravity * (mkPieceConfig req r i).kGravity ≠ 0) ∧
    (mkPieceConfig { sampleRequest with drag := 0 } zeroDraws 0).kX = 0 := by
  constructor
  · intro req r i hv hdrag
    obtain ⟨⟨hd0, _⟩, _⟩ := hv
    have hkx : (mkPieceConfig req r i).kX =
        (req.drag + r.dragR * 0.7) * 3 := rfl
    have hkg : (mkPieceConfig req r i).kGravity =
        max 0.5 ((req.drag + r.dragR * 0.7) * 2) := rfl
    have hpos : 0 < (mkPieceConfig req r i).kX := by
      rw [hkx]; nlinarith
    have hge : (0.5 : ℝ) ≤ (mkPieceConfig req r i).kGravity := by
      rw [hkg]; exact le_max_left _ _
    exact ⟨hpos, hge, ne_of_gt hpos,
      mul_ne_zero (by linarith) (by linarith)⟩
  · have : (mkPieceConfig { sampleRequest with drag := 0 } zeroDraws 0).kX =
        ((0 : ℝ) + (0 : ℝ) * 0.7) * 3 := rfl
    rw [this]; norm_num

/-- Witness for C10 at the sample request (base drag 0.6) and zero draws. -/
theorem c10_denominators_nonzero_witness :
    0 < (mkPieceConfig sampleRequest zeroDraws 0).kX ∧
    (0.5 : ℝ) ≤ (mkPieceConfig sampleRequest zeroDraws 0).kGravity ∧
    (mkPieceConfig sampleRequest zeroDraws 0).kX ≠ 0 ∧
    (mkPieceConfig sampleRequest zeroDraws 0).kGravity *
      (mkPieceConfig sampleRequest zeroDraws 0).kGravity ≠ 0 :=
  c10_denominators_nonzero.1 sampleRequest zeroDraws 0
    (by norm_num [RandDraws.valid, zeroDraws]) (by norm_num [sampleRequest])
